import Mathlib

/-!
Verification of the high-level `Reaper` façade of reaper-rs
(src/main/high/src/reaper.rs) and the accelerator message decoding
(src/main/medium/src/accelerator_register.rs), as a shallow embedding.

Conventions of the embedding:
* `CommandId` (a u32 newtype in the source) is modelled as `Nat`.
* Closures (action operations, toggle predicates, audio-thread tasks) are
  modelled as opaque identifiers (`Nat`): the façade never inspects them,
  it only stores, moves and invokes them, and invocation is recorded in an
  event log rather than executed.
* The crossbeam bounded channel is modelled by its queue contents
  (a list, FIFO) plus a connected flag; `Sender::send` on a bounded
  crossbeam channel blocks while the channel is full and connected and
  errs only on disconnection, which the model renders as an explicit
  `blocks` outcome.
* Host (REAPER) registration calls can succeed or fail; a `HostBehavior`
  record says which ones succeed.  A Rust `unwrap()` on a failed host call
  is modelled as the `panic` outcome.
* Rust `HashMap`s are modelled as association lists whose keys stay
  distinct (insertion happens only after a vacancy check, mirroring the
  source's `Entry::Vacant` / `insert`).
-/

namespace ReaperRs

/-- Identifier of a REAPER command (u32 newtype `CommandId` in the source). -/
abbrev CommandId := Nat

/-- Opaque identity of an audio-thread task closure (`AudioThreadTaskOp`). -/
abbrev Task := Nat

/-- Association-list lookup for our `HashMap` model. -/
def alookup (id : CommandId) : List (CommandId × α) → Option α
  | [] => none
  | (k, v) :: rest => if k = id then some v else alookup id rest

/-- Association-list removal (models `HashMap::remove`). -/
def aerase (id : CommandId) : List (CommandId × α) → List (CommandId × α)
  | [] => []
  | (k, v) :: rest => if k = id then aerase id rest else (k, v) :: aerase id rest

/-- Association-list overwrite-insert (models `HashMap::insert`). -/
def ainsert (id : CommandId) (v : α) (l : List (CommandId × α)) : List (CommandId × α) :=
  aerase id l ++ [(id, v)]

/-- `ActionKind` from the source: either not toggleable or toggleable with a
boolean-producing predicate (the predicate closure is opaque, kept by id). -/
inductive ActionKind
  | notToggleable
  | toggleable (isOn : Nat)
  deriving DecidableEq, Repr

/-- A registry entry (`Command` in the source): an opaque operation closure,
the toggle kind and the human-readable description. -/
structure Command where
  operation : Nat
  kind : ActionKind
  description : String
  deriving DecidableEq, Repr

/-- The parked real-time audio adapter (`HighOnAudioBuffer`), reduced to an
identity token: the adapter's only state is the channel receiver (modelled on
the façade state) and the zero-sized `RealTimeReaper` capability. -/
structure Adapter where
  tokenId : Nat
  deriving DecidableEq, Repr

/-- `SleepingState`: the boxed audio hook parked while sleeping. -/
structure SleepingState where
  audioHook : Adapter
  deriving DecidableEq, Repr

/-- `AwakeState`: the audio-hook registration (which owns the adapter on the
host side) and the per-command gaccel (accelerator) handles. -/
structure AwakeState where
  audioHook : Adapter
  gaccelRegisters : List (CommandId × Nat)
  deriving DecidableEq, Repr

/-- `SessionStatus` from the source: `Sleeping(Option<SleepingState>)`
or `Awake(AwakeState)`. -/
inductive SessionStatus
  | sleeping (state : Option SleepingState)
  | awake (state : AwakeState)
  deriving DecidableEq, Repr

/-- Is the session currently awake? -/
def SessionStatus.isAwake : SessionStatus → Bool
  | .awake _ => true
  | .sleeping _ => false

/-- In how many places does the session state machine currently hold the
audio adapter (parked while sleeping, or registered with the host while
awake)? -/
def SessionStatus.adapterCount : SessionStatus → Nat
  | .sleeping (some _) => 1
  | .sleeping none => 0
  | .awake _ => 1

/-- Log events the claims observe: the reactivation warning that carries the
discarded-task count. -/
inductive LogEvent
  | warnDiscardedTasks (count : Nat)
  deriving DecidableEq, Repr

/-- The mutable state of the `Reaper` façade that the claims are about:
the action registry, the bounded audio-thread task channel (queue contents
plus connected flag), the session status, the log, and the record of tasks
the real-time adapter has executed (in execution order). -/
structure ReaperState where
  commandById : List (CommandId × Command)
  audioThreadTasks : List Task
  channelConnected : Bool
  sessionStatus : SessionStatus
  log : List LogEvent
  executed : List Task
  deriving DecidableEq, Repr

/-- Capacity of the audio-thread task channel
(`AUDIO_THREAD_TASK_CHANNEL_CAPACITY`). -/
def AUDIO_THREAD_TASK_CHANNEL_CAPACITY : Nat := 500

/-- How many tasks the adapter takes per audio callback
(`AUDIO_THREAD_TASK_BULK_SIZE`). -/
def AUDIO_THREAD_TASK_BULK_SIZE : Nat := 1

/-- Outcome of `do_later_in_real_time_audio_thread_asap`.  The source calls
crossbeam's blocking `Sender::send` on the bounded channel: on a
disconnected channel `send` returns `Err` (mapped by the source to the
message below); on a full, still-connected channel `send` blocks the
calling thread, rendered here as the `blocks` outcome. -/
inductive SendOutcome
  | ok (s : ReaperState)
  | err (msg : String) (s : ReaperState)
  | blocks
  deriving DecidableEq, Repr

/-- `Reaper::do_later_in_real_time_audio_thread_asap`: forwards the closure
to `audio_thread_task_sender.send`, mapping the disconnect error to
"channel was disconnected". -/
def doLaterInRealTimeAudioThreadAsap (s : ReaperState) (t : Task) : SendOutcome :=
  if s.channelConnected = false then
    .err "channel was disconnected" s
  else if AUDIO_THREAD_TASK_CHANNEL_CAPACITY ≤ s.audioThreadTasks.length then
    .blocks
  else
    .ok { s with audioThreadTasks := s.audioThreadTasks ++ [t] }

/-- Which host (REAPER) registration calls succeed.  `gaccelHandle` is the
opaque accelerator handle the host hands back on a successful gaccel
registration. -/
structure HostBehavior where
  addHookCommandOk : Bool
  addToggleActionOk : Bool
  addHookPostCommand2Ok : Bool
  addGaccelOk : CommandId → Bool
  gaccelHandle : CommandId → Nat
  audioHookAddOk : Bool
  audioHookRemoveOk : Bool
  addCommandIdOk : Bool

/-- Result of a fallible façade call: `Ok` with the new state, `Err` with the
source's error message and the state as the call leaves it, or a Rust panic
(`unwrap` on a failed host call), which aborts the process. -/
inductive CallResult (σ : Type)
  | ok (s : σ)
  | err (msg : String) (s : σ)
  | panic (msg : String)
  deriving DecidableEq, Repr

/-- `HighOnAudioBuffer::reset` / `discard_tasks`: consume every queued task
without executing it and log a warning carrying the count if it is
nonzero. -/
def discardTasks (s : ReaperState) : ReaperState :=
  let taskCount := s.audioThreadTasks.length
  { s with
      audioThreadTasks := [],
      log := s.log ++ if 0 < taskCount then [.warnDiscardedTasks taskCount] else [] }

/-- `Reaper::wake_up`, following the source line by line:
if awake, err "Session is already awake"; otherwise `take()` the sleeping
state (leaving `Sleeping(None)` behind); if it was `None`, err
"Previous wake-up left session in invalid state"; otherwise discard dormant
tasks, register the hook command and toggle action (each failure is an
early `Err` — with the sleeping state already taken and dropped), ignore
the result of the analog post-command-2 hook registration, register one
gaccel per registry entry with `unwrap()` (failure panics), register the
audio hook consuming the adapter (failure is an `Err`), and transition to
`Awake`. -/
def wakeUp (h : HostBehavior) (s : ReaperState) : CallResult ReaperState :=
  match s.sessionStatus with
  | .awake _ => .err "Session is already awake" s
  | .sleeping none => .err "Previous wake-up left session in invalid state" s
  | .sleeping (some sl) =>
    let s1 := discardTasks { s with sessionStatus := .sleeping none }
    if h.addHookCommandOk = false then
      .err "couldn't register hook command" s1
    else if h.addToggleActionOk = false then
      .err "couldn't register toggle command" s1
    else if (s1.commandById.all fun p => h.addGaccelOk p.1) = false then
      .panic "plugin_register_add_gaccel failed: unwrap on an Err value"
    else if h.audioHookAddOk = false then
      .err "Audio hook registration failed" s1
    else
      .ok { s1 with
              sessionStatus := .awake
                { audioHook := sl.audioHook,
                  gaccelRegisters :=
                    s1.commandById.map fun p => (p.1, h.gaccelHandle p.1) } }

/-- `Reaper::go_to_sleep`: if sleeping, err "Session is already sleeping";
otherwise remove the audio hook (recovering the adapter; failure is an
`Err` leaving the session awake), remove every gaccel and the three hooks
(results ignored) and transition to `Sleeping(Some ...)` holding the
recovered adapter. -/
def goToSleep (h : HostBehavior) (s : ReaperState) : CallResult ReaperState :=
  match s.sessionStatus with
  | .sleeping _ => .err "Session is already sleeping" s
  | .awake aw =>
    if h.audioHookRemoveOk = false then
      .err "audio hook was not registered" s
    else
      .ok { s with sessionStatus := .sleeping (some { audioHook := aw.audioHook }) }

/-- `Reaper::register_action`: resolve the command id through the host
(`unwrap()`: failure panics), insert the command into the registry only if
the id is vacant, and — only if awake — immediately register a gaccel for
it (`unwrap()`: failure panics) and record its handle.  Returns the
`RegisteredAction` as the carried command id. -/
def registerAction (h : HostBehavior) (s : ReaperState) (commandId : CommandId)
    (operation : Nat) (kind : ActionKind) (description : String) :
    CallResult (ReaperState × CommandId) :=
  if h.addCommandIdOk = false then
    .panic "plugin_register_add_command_id failed: unwrap on an Err value"
  else
    let command : Command := { operation := operation, kind := kind, description := description }
    let s1 :=
      if (alookup commandId s.commandById).isNone then
        { s with commandById := s.commandById ++ [(commandId, command)] }
      else s
    match s1.sessionStatus with
    | .sleeping _ => .ok (s1, commandId)
    | .awake aw =>
      if h.addGaccelOk commandId = false then
        .panic "plugin_register_add_gaccel failed: unwrap on an Err value"
      else
        .ok ({ s1 with
                 sessionStatus := .awake
                   { aw with
                       gaccelRegisters :=
                         ainsert commandId (h.gaccelHandle commandId)
                           aw.gaccelRegisters } },
             commandId)

/-- `Reaper::unregister_action` effect on façade state: remove the entry from
the registry; the gaccel removal (when awake) is a host-side call that does
not change any façade field (the source does not remove the handle from
`gaccel_registers`). -/
def unregisterAction (s : ReaperState) (commandId : CommandId) : ReaperState :=
  { s with commandById := aerase commandId s.commandById }

/-- Atomic steps `unregister_action` performs, in source order. -/
inductive UnregStep
  | removeFromRegistry (id : CommandId)
  | removeGaccel (handle : Nat)
  deriving DecidableEq, Repr

/-- The sequence of steps `Reaper::unregister_action` performs, in source
order: first the registry removal, then — only if awake and a handle is
recorded — the host-side gaccel removal. -/
def unregisterActionTrace (s : ReaperState) (commandId : CommandId) : List UnregStep :=
  UnregStep.removeFromRegistry commandId ::
    (match s.sessionStatus with
     | .sleeping _ => []
     | .awake aw =>
       match alookup commandId aw.gaccelRegisters with
       | some handle => [UnregStep.removeGaccel handle]
       | none => [])

/-- `HighLevelHookCommand::call`: look the command id up in the registry;
absent means "not handled" (`false`), present means the operation is cloned
out and invoked, "handled" (`true`). -/
def hookCommandCall (s : ReaperState) (commandId : CommandId) : Bool :=
  (alookup commandId s.commandById).isSome

/-- `HighOnAudioBuffer::call` (the `OnAudioBuffer` impl): a post-processing
invocation returns immediately; otherwise it pulls at most
`AUDIO_THREAD_TASK_BULK_SIZE` (= 1) task from the channel and executes it
with the `RealTimeReaper` capability (execution recorded in `executed`). -/
def onAudioBufferCall (isPost : Bool) (s : ReaperState) : ReaperState :=
  if isPost then s
  else
    { s with
        executed := s.executed ++ s.audioThreadTasks.take AUDIO_THREAD_TASK_BULK_SIZE,
        audioThreadTasks := s.audioThreadTasks.drop AUDIO_THREAD_TASK_BULK_SIZE }

/-- A sequence of audio-callback invocations, each flagged with its
`is_post` value. -/
def runAudioCalls (flags : List Bool) (s : ReaperState) : ReaperState :=
  flags.foldl (fun acc isPost => onAudioBufferCall isPost acc) s

/-- Observable side effects of the `guarded` activation machinery. -/
inductive GuardEvent
  | ranInitializer
  | calledWakeUp
  | ranUserWakeUp
  | ranTeardown
  | calledGoToSleep
  deriving DecidableEq, Repr

/-- State of the guard machinery: the `GUARD_INITIALIZER` once-flag, the
process-wide weak guard reference (`REAPER_GUARD`) modelled as the live
token id with its strong count (upgradeable exactly when present), and a
counter for fresh token identities. -/
structure GuardState where
  initDone : Bool
  live : Option (Nat × Nat)
  nextToken : Nat
  deriving DecidableEq, Repr

/-- `Reaper::guarded`: under the guard mutex, try to upgrade the weak
reference — on success return that same token (a new strong reference, no
side effects); otherwise run the one-time initializer if it never ran,
call `Reaper::get().wake_up()`, run the caller's wake-up closure (producing
the teardown), and store a fresh token with strong count 1.  Returns the
new state, the token handed out, and the side effects in order. -/
def guarded (g : GuardState) : GuardState × Nat × List GuardEvent :=
  match g.live with
  | some (tok, n) => ({ g with live := some (tok, n + 1) }, tok, [])
  | none =>
    let initEvents := if g.initDone then [] else [GuardEvent.ranInitializer]
    ({ initDone := true, live := some (g.nextToken, 1), nextToken := g.nextToken + 1 },
     g.nextToken,
     initEvents ++ [GuardEvent.calledWakeUp, GuardEvent.ranUserWakeUp])

/-- Dropping one strong reference to the guard token (`Arc` semantics plus
`ReaperGuard::drop`): if other strong references remain, only the count
drops; when the last one goes, the stored teardown closure runs and then
`Reaper::get().go_to_sleep()` is called. -/
def dropGuardHandle (g : GuardState) : GuardState × List GuardEvent :=
  match g.live with
  | none => (g, [])
  | some (tok, n) =>
    if n ≤ 1 then
      ({ g with live := none }, [GuardEvent.ranTeardown, GuardEvent.calledGoToSleep])
    else
      ({ g with live := some (tok, n - 1) }, [])

/-- A host on which every registration call succeeds (handles equal ids). -/
def hostAllOk : HostBehavior :=
  { addHookCommandOk := true
    addToggleActionOk := true
    addHookPostCommand2Ok := true
    addGaccelOk := fun _ => true
    gaccelHandle := fun id => id
    audioHookAddOk := true
    audioHookRemoveOk := true
    addCommandIdOk := true }

/-- A concrete parked adapter used by the example states. -/
def exampleAdapter : Adapter := { tokenId := 7 }

/-- A freshly set-up façade: sleeping with the adapter parked, the given
queued tasks and the given registry. -/
def sleepingReaper (tasks : List Task) (registry : List (CommandId × Command)) :
    ReaperState :=
  { commandById := registry
    audioThreadTasks := tasks
    channelConnected := true
    sessionStatus := .sleeping (some { audioHook := exampleAdapter })
    log := []
    executed := [] }

/-- A concrete awake façade with one registered action (id 1, gaccel
handle 42). -/
def awakeReaper : ReaperState :=
  { commandById := [(1, { operation := 10, kind := .notToggleable, description := "cmd" })]
    audioThreadTasks := []
    channelConnected := true
    sessionStatus := .awake { audioHook := exampleAdapter, gaccelRegisters := [(1, 42)] }
    log := []
    executed := [] }

/-- A concrete registry entry used by the example states. -/
def exampleCommand : Command :=
  { operation := 10, kind := .notToggleable, description := "cmd" }

/-- A host refusing every gaccel (accelerator-entry) registration, with all
other calls succeeding. -/
def hostGaccelFails : HostBehavior :=
  { hostAllOk with addGaccelOk := fun _ => false }

/-- A host refusing the hook-command registration, with all other calls
succeeding. -/
def hostHookCommandFails : HostBehavior :=
  { hostAllOk with addHookCommandOk := false }

/-- The façade state a failed wake-up leaves behind: `Sleeping(None)`, the
adapter gone. -/
def invalidatedReaper : ReaperState :=
  { sleepingReaper [] [] with sessionStatus := .sleeping none }

/-- The façade state a successful wake-up of `sleepingReaper [] []`
produces: awake, the adapter registered with the host, no gaccels. -/
def awokenEmptyReaper : ReaperState :=
  { sleepingReaper [] [] with
      sessionStatus := .awake { audioHook := exampleAdapter, gaccelRegisters := [] } }

/-- The façade state a successful `go_to_sleep` of `awakeReaper` produces:
sleeping again, holding the recovered adapter. -/
def resleptReaper : ReaperState :=
  { awakeReaper with
      sessionStatus := .sleeping (some { audioHook := exampleAdapter }) }

/-- The façade state a successful wake-up of `sleepingReaper [3, 4, 5] []`
produces: the three dormant tasks discarded unexecuted, a warning with
count 3 logged. -/
def awokenAfterTasks : ReaperState :=
  { sleepingReaper [3, 4, 5] [] with
      audioThreadTasks := []
      sessionStatus := .awake { audioHook := exampleAdapter, gaccelRegisters := [] }
      log := [.warnDiscardedTasks 3] }

end ReaperRs

namespace AcceleratorRegister

/-- Win32 message constants used by `AccelMsgKind::from_raw`.  They come from
`reaper_low::raw`, which is outside the given sources; the values are the
standard Win32 ones re-exported there. -/
def WM_KEYDOWN : Nat := 0x0100

/-- Win32 `WM_KEYUP` message constant. -/
def WM_KEYUP : Nat := 0x0101

/-- Win32 `WM_CHAR` message constant. -/
def WM_CHAR : Nat := 0x0102

/-- Win32 `WM_SYSKEYDOWN` message constant. -/
def WM_SYSKEYDOWN : Nat := 0x0104

/-- Win32 `WM_SYSKEYUP` message constant. -/
def WM_SYSKEYUP : Nat := 0x0105

/-- `AccelMsgKind` from src/main/medium/src/accelerator_register.rs
(`Unknown(Hidden<u32>)` keeps the raw value). -/
inductive AccelMsgKind
  | keyDown
  | keyUp
  | char
  | sysKeyDown
  | sysKeyUp
  | unknown (v : Nat)
  deriving DecidableEq, Repr

/-- `AccelMsgKind::from_raw`: a total match on the message code with a
catch-all arm `v => Unknown(Hidden(v))`. -/
def AccelMsgKind.fromRaw (v : Nat) : AccelMsgKind :=
  if v = WM_KEYDOWN then .keyDown
  else if v = WM_KEYUP then .keyUp
  else if v = WM_CHAR then .char
  else if v = WM_SYSKEYDOWN then .sysKeyDown
  else if v = WM_SYSKEYUP then .sysKeyUp
  else .unknown v

end AcceleratorRegister

namespace ReaperRs

/-- Looking a key up after erasing it yields nothing. -/
theorem alookup_aerase (id : CommandId) (l : List (CommandId × α)) :
    alookup id (aerase id l) = none := by
  induction l with
  | nil => rfl
  | cons p rest ih =>
    obtain ⟨k, v⟩ := p
    by_cases hk : k = id
    · simpa [aerase, hk] using ih
    · simpa [aerase, alookup, hk] using ih

/-- A key that looks up to nothing is not among the keys. -/
theorem not_mem_keys_of_alookup_none {id : CommandId} {l : List (CommandId × α)}
    (h : alookup id l = none) : id ∉ l.map Prod.fst := by
  induction l with
  | nil => simp
  | cons p rest ih =>
    obtain ⟨k, v⟩ := p
    by_cases hk : k = id
    · simp [alookup, hk] at h
    · simp only [alookup, hk, if_false] at h
      simpa [hk, Ne.symm hk] using ih h

/-- Lookup distributes over append when the key is absent on the left. -/
theorem alookup_append_of_none {id : CommandId} {l : List (CommandId × α)}
    (l2 : List (CommandId × α)) (h : alookup id l = none) :
    alookup id (l ++ l2) = alookup id l2 := by
  induction l with
  | nil => rfl
  | cons p rest ih =>
    obtain ⟨k, v⟩ := p
    by_cases hk : k = id
    · simp [alookup, hk] at h
    · simp only [alookup, hk, if_false] at h ⊢
      exact ih h

end ReaperRs

namespace ReaperRs

set_option maxRecDepth 4000 in
/-- C1: the claim says a send into a full task channel fails immediately with
an error; the source calls crossbeam's blocking `send`, so on a connected
channel already holding 500 tasks the call blocks the calling thread (first
conjunct), and only a disconnected channel produces the immediate error
(second conjunct) — contradicting the function's own doc comment
"Returns an error if task queue is full". -/
theorem c1_send_on_full_channel_blocks :
    doLaterInRealTimeAudioThreadAsap (sleepingReaper (List.replicate 500 0) []) 7 =
      SendOutcome.blocks ∧
    doLaterInRealTimeAudioThreadAsap
        { sleepingReaper [] [] with channelConnected := false } 7 =
      SendOutcome.err "channel was disconnected"
        { sleepingReaper [] [] with channelConnected := false } := by
  constructor
  · simp [doLaterInRealTimeAudioThreadAsap, sleepingReaper,
      AUDIO_THREAD_TASK_CHANNEL_CAPACITY]
  · rfl

/-- C2: the session status strictly alternates: `wake_up` while awake errs
with "Session is already awake" leaving the state unchanged, `go_to_sleep`
while sleeping errs with "Session is already sleeping" leaving the state
unchanged, and the successful transitions go sleeping-to-awake and
awake-to-sleeping respectively. -/
theorem c2_session_status_strict_alternation (h : HostBehavior) (s : ReaperState) :
    (s.sessionStatus.isAwake = true →
        wakeUp h s = CallResult.err "Session is already awake" s) ∧
    (s.sessionStatus.isAwake = false →
        goToSleep h s = CallResult.err "Session is already sleeping" s) ∧
    (∀ s', wakeUp h s = CallResult.ok s' →
        s.sessionStatus.isAwake = false ∧ s'.sessionStatus.isAwake = true) ∧
    (∀ s', goToSleep h s = CallResult.ok s' →
        s.sessionStatus.isAwake = true ∧ s'.sessionStatus.isAwake = false) := by
  rcases hs : s.sessionStatus with st | st
  · refine ⟨?_, ?_, ?_, ?_⟩
    · intro hA; simp [SessionStatus.isAwake] at hA
    · intro _; simp [goToSleep, hs]
    · intro s' hok
      rcases st with _ | sl
      · simp [wakeUp, hs] at hok
      · simp only [wakeUp, hs] at hok
        split at hok
        · cases hok
        · split at hok
          · cases hok
          · split at hok
            · cases hok
            · split at hok
              · cases hok
              · cases hok
                simp [SessionStatus.isAwake, hs]
    · intro s' hok
      simp [goToSleep, hs] at hok
  · refine ⟨?_, ?_, ?_, ?_⟩
    · intro _; simp [wakeUp, hs]
    · intro hA; simp [SessionStatus.isAwake] at hA
    · intro s' hok
      simp [wakeUp, hs] at hok
    · intro s' hok
      simp only [goToSleep, hs] at hok
      split at hok
      · cases hok
      · cases hok
        simp [SessionStatus.isAwake, hs]

/-- Witness for C2 at concrete states: waking an awake façade and putting a
sleeping one to sleep produce exactly the two errors, states unchanged. -/
theorem c2_session_status_strict_alternation_witness :
    wakeUp hostAllOk awakeReaper = CallResult.err "Session is already awake" awakeReaper ∧
    goToSleep hostAllOk (sleepingReaper [] []) =
      CallResult.err "Session is already sleeping" (sleepingReaper [] []) :=
  ⟨(c2_session_status_strict_alternation hostAllOk awakeReaper).1 rfl,
   (c2_session_status_strict_alternation hostAllOk (sleepingReaper [] [])).2.1 rfl⟩

end ReaperRs

namespace AcceleratorRegister

/-- C10: `AccelMsgKind::from_raw` is total: the five known Win32 message
codes map to their variants and every other value is preserved inside
`Unknown`, never panicking. -/
theorem c10_accel_msg_kind_from_raw_total (v : Nat) :
    AccelMsgKind.fromRaw WM_KEYDOWN = AccelMsgKind.keyDown ∧
    AccelMsgKind.fromRaw WM_KEYUP = AccelMsgKind.keyUp ∧
    AccelMsgKind.fromRaw WM_CHAR = AccelMsgKind.char ∧
    AccelMsgKind.fromRaw WM_SYSKEYDOWN = AccelMsgKind.sysKeyDown ∧
    AccelMsgKind.fromRaw WM_SYSKEYUP = AccelMsgKind.sysKeyUp ∧
    (v ≠ WM_KEYDOWN → v ≠ WM_KEYUP → v ≠ WM_CHAR → v ≠ WM_SYSKEYDOWN →
      v ≠ WM_SYSKEYUP → AccelMsgKind.fromRaw v = AccelMsgKind.unknown v) := by
  refine ⟨rfl, rfl, rfl, rfl, rfl, ?_⟩
  intro h1 h2 h3 h4 h5
  simp [AccelMsgKind.fromRaw, h1, h2, h3, h4, h5]

/-- Witness for C10: the unrecognized message code 0x0200 (`WM_MOUSEMOVE`)
decodes to `Unknown(0x0200)`. -/
theorem c10_accel_msg_kind_from_raw_total_witness :
    AccelMsgKind.fromRaw 0x0200 = AccelMsgKind.unknown 0x0200 :=
  (c10_accel_msg_kind_from_raw_total 0x0200).2.2.2.2.2
    (by decide) (by decide) (by decide) (by decide) (by decide)

end AcceleratorRegister

namespace ReaperRs

/-- C3 counterexample: a host refusing an accelerator-entry (gaccel)
registration makes `wake_up` (with an action in the registry) and
`register_action` (while awake) panic — aborting the process — instead of
returning a recoverable error result. -/
theorem c3_counterexample :
    wakeUp hostGaccelFails (sleepingReaper [] [(1, exampleCommand)]) =
      CallResult.panic "plugin_register_add_gaccel failed: unwrap on an Err value" ∧
    registerAction hostGaccelFails awakeReaper 2 11 ActionKind.notToggleable "other" =
      CallResult.panic "plugin_register_add_gaccel failed: unwrap on an Err value" := by
  exact ⟨rfl, rfl⟩

/-- C3 amended: failures of the hook-command, toggle-action and audio-hook
registrations during `wake_up`, and of the audio-hook removal during
`go_to_sleep`, surface as recoverable error results; the analog
post-command hook's registration result is ignored entirely (its failure
is swallowed); but an accelerator (gaccel) entry the host refuses to
register makes `wake_up` and `register_action` panic rather than return an
error. -/
theorem c3_amended_host_registration_failures (h : HostBehavior) (s : ReaperState) :
    (∀ sl, s.sessionStatus = SessionStatus.sleeping (some sl) →
        h.addHookCommandOk = false →
        ∃ s1, wakeUp h s = CallResult.err "couldn't register hook command" s1) ∧
    (∀ sl, s.sessionStatus = SessionStatus.sleeping (some sl) →
        h.addHookCommandOk = true → h.addToggleActionOk = false →
        ∃ s1, wakeUp h s = CallResult.err "couldn't register toggle command" s1) ∧
    (∀ sl, s.sessionStatus = SessionStatus.sleeping (some sl) →
        h.addHookCommandOk = true → h.addToggleActionOk = true →
        (∀ p ∈ s.commandById, h.addGaccelOk p.1 = true) →
        h.audioHookAddOk = false →
        ∃ s1, wakeUp h s = CallResult.err "Audio hook registration failed" s1) ∧
    (∀ b, wakeUp { h with addHookPostCommand2Ok := b } s = wakeUp h s) ∧
    (∀ sl, s.sessionStatus = SessionStatus.sleeping (some sl) →
        h.addHookCommandOk = true → h.addToggleActionOk = true →
        (∃ p ∈ s.commandById, h.addGaccelOk p.1 = false) →
        wakeUp h s =
          CallResult.panic "plugin_register_add_gaccel failed: unwrap on an Err value") ∧
    (∀ aw, s.sessionStatus = SessionStatus.awake aw →
        h.audioHookRemoveOk = false →
        goToSleep h s = CallResult.err "audio hook was not registered" s) ∧
    (∀ aw, s.sessionStatus = SessionStatus.awake aw →
        h.addCommandIdOk = true →
        ∀ id op k d, h.addGaccelOk id = false →
        registerAction h s id op k d =
          CallResult.panic "plugin_register_add_gaccel failed: unwrap on an Err value") := by
  refine ⟨?_, ?_, ?_, ?_, ?_, ?_, ?_⟩
  · intro sl hsl h1
    refine ⟨discardTasks { s with sessionStatus := SessionStatus.sleeping none }, ?_⟩
    simp [wakeUp, hsl, h1]
  · intro sl hsl h1 h2
    refine ⟨discardTasks { s with sessionStatus := SessionStatus.sleeping none }, ?_⟩
    simp [wakeUp, hsl, h1, h2]
  · intro sl hsl h1 h2 hg ha
    have hall : (s.commandById.all fun p => h.addGaccelOk p.1) = true := by
      rw [List.all_eq_true]; exact fun p hp => hg p hp
    refine ⟨discardTasks { s with sessionStatus := SessionStatus.sleeping none }, ?_⟩
    simp [wakeUp, hsl, h1, h2, ha, discardTasks, hall]
  · intro b; rfl
  · intro sl hsl h1 h2 hg
    obtain ⟨p, hp, hpf⟩ := hg
    have hall : (s.commandById.all fun q => h.addGaccelOk q.1) = false := by
      rw [Bool.eq_false_iff]
      intro hcon
      rw [List.all_eq_true] at hcon
      have hx := hcon p hp
      rw [hpf] at hx
      cases hx
    simp [wakeUp, hsl, h1, h2, discardTasks, hall]
  · intro aw haw hr
    simp [goToSleep, haw, hr]
  · intro aw haw hc id op k d hgf
    by_cases hv : alookup id s.commandById = none <;>
      simp [registerAction, haw, hc, hgf, hv]

end ReaperRs

namespace ReaperRs

/-- Witness for the amended C3 at concrete inputs: each failure mode
produces exactly the stated outcome. -/
theorem c3_amended_host_registration_failures_witness :
    (∃ s1, wakeUp hostHookCommandFails (sleepingReaper [] []) =
        CallResult.err "couldn't register hook command" s1) ∧
    (∃ s1, wakeUp { hostAllOk with addToggleActionOk := false } (sleepingReaper [] []) =
        CallResult.err "couldn't register toggle command" s1) ∧
    (∃ s1, wakeUp { hostAllOk with audioHookAddOk := false }
        (sleepingReaper [] [(1, exampleCommand)]) =
        CallResult.err "Audio hook registration failed" s1) ∧
    wakeUp { hostAllOk with addHookPostCommand2Ok := false } (sleepingReaper [] []) =
      wakeUp hostAllOk (sleepingReaper [] []) ∧
    wakeUp hostGaccelFails (sleepingReaper [] [(2, exampleCommand)]) =
      CallResult.panic "plugin_register_add_gaccel failed: unwrap on an Err value" ∧
    goToSleep { hostAllOk with audioHookRemoveOk := false } awakeReaper =
      CallResult.err "audio hook was not registered" awakeReaper ∧
    registerAction hostGaccelFails awakeReaper 3 11 ActionKind.notToggleable "other" =
      CallResult.panic "plugin_register_add_gaccel failed: unwrap on an Err value" := by
  refine ⟨?_, ?_, ?_, ?_, ?_, ?_, ?_⟩
  · exact (c3_amended_host_registration_failures hostHookCommandFails
      (sleepingReaper [] [])).1 { audioHook := exampleAdapter } rfl rfl
  · exact (c3_amended_host_registration_failures { hostAllOk with addToggleActionOk := false }
      (sleepingReaper [] [])).2.1 { audioHook := exampleAdapter } rfl rfl rfl
  · exact (c3_amended_host_registration_failures { hostAllOk with audioHookAddOk := false }
      (sleepingReaper [] [(1, exampleCommand)])).2.2.1 { audioHook := exampleAdapter }
      rfl rfl rfl (fun p _ => rfl) rfl
  · exact (c3_amended_host_registration_failures hostAllOk (sleepingReaper [] [])).2.2.2.1 false
  · exact (c3_amended_host_registration_failures hostGaccelFails
      (sleepingReaper [] [(2, exampleCommand)])).2.2.2.2.1 { audioHook := exampleAdapter }
      rfl rfl rfl ⟨(2, exampleCommand), List.Mem.head _, rfl⟩
  · exact (c3_amended_host_registration_failures { hostAllOk with audioHookRemoveOk := false }
      awakeReaper).2.2.2.2.2.1 { audioHook := exampleAdapter, gaccelRegisters := [(1, 42)] }
      rfl rfl
  · exact (c3_amended_host_registration_failures hostGaccelFails
      awakeReaper).2.2.2.2.2.2 { audioHook := exampleAdapter, gaccelRegisters := [(1, 42)] }
      rfl rfl 3 11 ActionKind.notToggleable "other" rfl

/-- C4 counterexample: a `wake_up` that fails at the hook-command
registration does not keep the adapter available: it leaves the session
`Sleeping(None)` (the adapter held in zero places), and a later wake-up
attempt on a fully cooperative host fails with
"Previous wake-up left session in invalid state" instead of succeeding. -/
theorem c4_counterexample :
    wakeUp hostHookCommandFails (sleepingReaper [] []) =
      CallResult.err "couldn't register hook command" invalidatedReaper ∧
    invalidatedReaper.sessionStatus.adapterCount = 0 ∧
    wakeUp hostAllOk invalidatedReaper =
      CallResult.err "Previous wake-up left session in invalid state" invalidatedReaper := by
  exact ⟨rfl, rfl, rfl⟩

/-- C4 amended: while transitions succeed the adapter lives in exactly one
place — a successful `wake_up` moves the very adapter parked in the
sleeping state into the host registration, and a successful `go_to_sleep`
returns that same adapter into the sleeping state; but a `wake_up` that
returns an error from the sleeping state leaves `Sleeping(None)` — the
adapter is dropped, held in zero places — and every later `wake_up`
fails with "Previous wake-up left session in invalid state". -/
theorem c4_amended_adapter_ownership (h h2 : HostBehavior) (s : ReaperState) :
    (∀ sl s', s.sessionStatus = SessionStatus.sleeping (some sl) →
        wakeUp h s = CallResult.ok s' →
        ∃ gaccels, s'.sessionStatus =
            SessionStatus.awake { audioHook := sl.audioHook, gaccelRegisters := gaccels } ∧
          s'.sessionStatus.adapterCount = 1) ∧
    (∀ aw s', s.sessionStatus = SessionStatus.awake aw →
        goToSleep h s = CallResult.ok s' →
        s'.sessionStatus = SessionStatus.sleeping (some { audioHook := aw.audioHook }) ∧
        s'.sessionStatus.adapterCount = 1) ∧
    (∀ sl m s1, s.sessionStatus = SessionStatus.sleeping (some sl) →
        wakeUp h s = CallResult.err m s1 →
        s1.sessionStatus = SessionStatus.sleeping none ∧
        s1.sessionStatus.adapterCount = 0 ∧
        wakeUp h2 s1 = CallResult.err "Previous wake-up left session in invalid state" s1) := by
  refine ⟨?_, ?_, ?_⟩
  · intro sl s' hsl hok
    simp only [wakeUp, hsl] at hok
    split at hok
    · cases hok
    · split at hok
      · cases hok
      · split at hok
        · cases hok
        · split at hok
          · cases hok
          · cases hok
            exact ⟨_, rfl, rfl⟩
  · intro aw s' haw hok
    simp only [goToSleep, haw] at hok
    split at hok
    · cases hok
    · cases hok
      exact ⟨rfl, rfl⟩
  · intro sl m s1 hsl hok
    simp only [wakeUp, hsl] at hok
    split at hok
    · cases hok
      exact ⟨rfl, rfl, rfl⟩
    · split at hok
      · cases hok
        exact ⟨rfl, rfl, rfl⟩
      · split at hok
        · cases hok
        · split at hok
          · cases hok
            exact ⟨rfl, rfl, rfl⟩
          · cases hok

/-- Witness for the amended C4 at concrete inputs: a successful wake moves
the parked adapter into the awake state, a successful sleep recovers it,
and a failed wake leaves the adapter in zero places with retries
failing. -/
theorem c4_amended_adapter_ownership_witness :
    (∃ gaccels, awokenEmptyReaper.sessionStatus =
        SessionStatus.awake { audioHook := exampleAdapter, gaccelRegisters := gaccels } ∧
      awokenEmptyReaper.sessionStatus.adapterCount = 1) ∧
    (resleptReaper.sessionStatus =
        SessionStatus.sleeping (some { audioHook := exampleAdapter }) ∧
      resleptReaper.sessionStatus.adapterCount = 1) ∧
    (invalidatedReaper.sessionStatus = SessionStatus.sleeping none ∧
      invalidatedReaper.sessionStatus.adapterCount = 0 ∧
      wakeUp hostAllOk invalidatedReaper =
        CallResult.err "Previous wake-up left session in invalid state" invalidatedReaper) := by
  refine ⟨?_, ?_, ?_⟩
  · exact (c4_amended_adapter_ownership hostAllOk hostAllOk (sleepingReaper [] [])).1
      { audioHook := exampleAdapter } awokenEmptyReaper rfl rfl
  · exact (c4_amended_adapter_ownership hostAllOk hostAllOk awakeReaper).2.1
      { audioHook := exampleAdapter, gaccelRegisters := [(1, 42)] } resleptReaper rfl rfl
  · exact (c4_amended_adapter_ownership hostHookCommandFails hostAllOk
      (sleepingReaper [] [])).2.2 { audioHook := exampleAdapter }
      "couldn't register hook command" invalidatedReaper rfl rfl

end ReaperRs

namespace ReaperRs

/-- A successful `register_action` returns the resolved command id and
either appends the new command (id vacant) or leaves the registry
untouched (id occupied). -/
theorem registerAction_ok_fields (h : HostBehavior) (s : ReaperState)
    (id : CommandId) (op : Nat) (k : ActionKind) (d : String)
    (s' : ReaperState) (a : CommandId)
    (hok : registerAction h s id op k d = CallResult.ok (s', a)) :
    a = id ∧
    s'.commandById =
      (if alookup id s.commandById = none then
        s.commandById ++ [(id, { operation := op, kind := k, description := d })]
      else s.commandById) := by
  by_cases hc : h.addCommandIdOk = false
  · simp [registerAction, hc] at hok
  · by_cases hv : alookup id s.commandById = none
    · rcases hst : s.sessionStatus with st | aw
      · simp only [registerAction, hc, hv, if_true, if_false, Option.isNone_some,
          Option.isNone_none, hst, if_neg hc] at hok
        simp [hst] at hok
        obtain ⟨hs', ha⟩ := hok
        subst hs'
        subst ha
        simp [hv]
      · by_cases hg : h.addGaccelOk id = false
        · simp [registerAction, hc, hv, hst, hg] at hok
        · simp [registerAction, hc, hv, hst, hg] at hok
          obtain ⟨hs', ha⟩ := hok
          subst hs'
          subst ha
          simp [hv]
    · rcases hst : s.sessionStatus with st | aw
      · simp [registerAction, hc, hv, hst] at hok
        obtain ⟨hs', ha⟩ := hok
        subst hs'
        subst ha
        simp [hv]
      · by_cases hg : h.addGaccelOk id = false
        · simp [registerAction, hc, hv, hst, hg] at hok
        · simp [registerAction, hc, hv, hst, hg] at hok
          obtain ⟨hs', ha⟩ := hok
          subst hs'
          subst ha
          simp [hv]

/-- C5: the registry holds at most one entry per command id, and registering
the same command id twice keeps the first operation, kind and description:
the second call leaves the registry exactly as the first left it. -/
theorem c5_register_action_idempotent_insert (h : HostBehavior)
    (s s1 s2 : ReaperState) (id a1 a2 : CommandId)
    (op1 op2 : Nat) (k1 k2 : ActionKind) (d1 d2 : String)
    (hvac : alookup id s.commandById = none)
    (h1 : registerAction h s id op1 k1 d1 = CallResult.ok (s1, a1))
    (h2 : registerAction h s1 id op2 k2 d2 = CallResult.ok (s2, a2)) :
    s2.commandById = s1.commandById ∧
    alookup id s2.commandById =
      some { operation := op1, kind := k1, description := d1 } ∧
    a1 = id ∧ a2 = id ∧
    ((s.commandById.map Prod.fst).Nodup → (s2.commandById.map Prod.fst).Nodup) := by
  obtain ⟨ha1, hreg1⟩ := registerAction_ok_fields h s id op1 k1 d1 s1 a1 h1
  rw [if_pos hvac] at hreg1
  have hfound : alookup id s1.commandById =
      some { operation := op1, kind := k1, description := d1 } := by
    rw [hreg1, alookup_append_of_none _ hvac]
    simp [alookup]
  obtain ⟨ha2, hreg2⟩ := registerAction_ok_fields h s1 id op2 k2 d2 s2 a2 h2
  rw [if_neg (by rw [hfound]; intro hcon; cases hcon)] at hreg2
  refine ⟨hreg2, by rw [hreg2, hfound], ha1, ha2, ?_⟩
  intro hnd
  rw [hreg2, hreg1]
  have hid : id ∉ s.commandById.map Prod.fst := not_mem_keys_of_alookup_none hvac
  simpa using List.Nodup.append hnd (List.nodup_singleton id)
    (by simpa [List.disjoint_singleton] using hid)

/-- Witness for C5 at concrete inputs: registering command id 1 twice keeps
the first entry. -/
theorem c5_register_action_idempotent_insert_witness :
    (sleepingReaper [] [(1, exampleCommand)]).commandById =
      (sleepingReaper [] [(1, exampleCommand)]).commandById ∧
    alookup 1 (sleepingReaper [] [(1, exampleCommand)]).commandById =
      some { operation := 10, kind := ActionKind.notToggleable, description := "cmd" } ∧
    (1 : CommandId) = 1 ∧ (1 : CommandId) = 1 ∧
    (((sleepingReaper [] []).commandById.map Prod.fst).Nodup →
      ((sleepingReaper [] [(1, exampleCommand)]).commandById.map Prod.fst).Nodup) :=
  c5_register_action_idempotent_insert hostAllOk (sleepingReaper [] [])
    (sleepingReaper [] [(1, exampleCommand)]) (sleepingReaper [] [(1, exampleCommand)])
    1 1 1 10 99 ActionKind.notToggleable (ActionKind.toggleable 5) "cmd" "other"
    rfl rfl rfl

/-- C6: after `unregister_action`, a host dispatch for that command id
returns "not handled" (`false`) whatever the session status, and in the
step sequence of `unregister_action` the registry removal comes first:
every host-side gaccel removal sits strictly after it. -/
theorem c6_unregister_then_dispatch (s : ReaperState) (id : CommandId) :
    hookCommandCall (unregisterAction s id) id = false ∧
    (unregisterActionTrace s id).head? = some (UnregStep.removeFromRegistry id) ∧
    (∀ handle, UnregStep.removeGaccel handle ∈ unregisterActionTrace s id →
        UnregStep.removeGaccel handle ∈ (unregisterActionTrace s id).tail) := by
  refine ⟨?_, rfl, ?_⟩
  · simp [hookCommandCall, unregisterAction, alookup_aerase]
  · intro handle hmem
    rw [unregisterActionTrace, List.mem_cons] at hmem
    rcases hmem with hmem | hmem
    · cases hmem
    · exact hmem

/-- Witness for C6 at a concrete awake façade: unregistering action 1 makes
its dispatch unhandled and places the gaccel removal after the registry
removal. -/
theorem c6_unregister_then_dispatch_witness :
    hookCommandCall (unregisterAction awakeReaper 1) 1 = false ∧
    UnregStep.removeGaccel 42 ∈ (unregisterActionTrace awakeReaper 1).tail :=
  ⟨(c6_unregister_then_dispatch awakeReaper 1).1,
   (c6_unregister_then_dispatch awakeReaper 1).2.2 42 (by decide)⟩

end ReaperRs

namespace ReaperRs

/-- C7: every successful `wake_up` leaves the task channel empty, executes
none of the queued tasks, and logs the warning with the discarded count
exactly when that count is nonzero (waking after N dormant enqueues logs
count N and executes zero of them). -/
theorem c7_wake_up_discards_dormant_tasks (h : HostBehavior) (s s' : ReaperState)
    (hok : wakeUp h s = CallResult.ok s') :
    s'.audioThreadTasks = [] ∧
    s'.executed = s.executed ∧
    (0 < s.audioThreadTasks.length →
      s'.log = s.log ++ [LogEvent.warnDiscardedTasks s.audioThreadTasks.length]) ∧
    (s.audioThreadTasks.length = 0 → s'.log = s.log) := by
  rcases hst : s.sessionStatus with st | aw
  · rcases st with _ | sl
    · simp [wakeUp, hst] at hok
    · simp only [wakeUp, hst] at hok
      split at hok
      · cases hok
      · split at hok
        · cases hok
        · split at hok
          · cases hok
          · split at hok
            · cases hok
            · cases hok
              refine ⟨rfl, rfl, ?_, ?_⟩
              · intro hlen
                simp [discardTasks, hlen]
              · intro hlen
                simp [discardTasks, hlen]
  · simp [wakeUp, hst] at hok

/-- Witness for C7: waking up with three dormant tasks empties the channel,
executes nothing and logs a discard warning with count 3. -/
theorem c7_wake_up_discards_dormant_tasks_witness :
    awokenAfterTasks.audioThreadTasks = [] ∧
    awokenAfterTasks.executed = (sleepingReaper [3, 4, 5] []).executed ∧
    awokenAfterTasks.log = (sleepingReaper [3, 4, 5] []).log ++
      [LogEvent.warnDiscardedTasks 3] :=
  ⟨(c7_wake_up_discards_dormant_tasks hostAllOk (sleepingReaper [3, 4, 5] [])
      awokenAfterTasks rfl).1,
   (c7_wake_up_discards_dormant_tasks hostAllOk (sleepingReaper [3, 4, 5] [])
      awokenAfterTasks rfl).2.1,
   (c7_wake_up_discards_dormant_tasks hostAllOk (sleepingReaper [3, 4, 5] [])
      awokenAfterTasks rfl).2.2.1 (by decide)⟩

/-- C8: a post-processing invocation of the audio callback is a no-op, and a
sequence of invocations executes exactly one queued task per
non-post invocation, in FIFO order: after any flag sequence the executed
record extends by the first `k` queued tasks and the queue loses them,
where `k` counts the non-post invocations. -/
theorem c8_audio_callback_fifo (flags : List Bool) (s : ReaperState) :
    onAudioBufferCall true s = s ∧
    (runAudioCalls flags s).executed =
      s.executed ++ s.audioThreadTasks.take (flags.count false) ∧
    (runAudioCalls flags s).audioThreadTasks =
      s.audioThreadTasks.drop (flags.count false) := by
  refine ⟨rfl, ?_⟩
  induction flags generalizing s with
  | nil => simp [runAudioCalls]
  | cons b fs ih =>
    have hstep : runAudioCalls (b :: fs) s = runAudioCalls fs (onAudioBufferCall b s) := rfl
    cases b
    · obtain ⟨ihe, iht⟩ := ih (onAudioBufferCall false s)
      rw [hstep]
      constructor
      · rw [ihe]
        simp only [onAudioBufferCall, if_neg (by simp : ¬(false = true)),
          AUDIO_THREAD_TASK_BULK_SIZE, List.count_cons]
        rw [List.append_assoc, ← List.take_add]
        simp [Nat.add_comm]
      · rw [iht]
        simp only [onAudioBufferCall, if_neg (by simp : ¬(false = true)),
          AUDIO_THREAD_TASK_BULK_SIZE, List.count_cons, List.drop_drop]
        simp [Nat.add_comm]
    · obtain ⟨ihe, iht⟩ := ih (onAudioBufferCall true s)
      rw [hstep]
      constructor
      · rw [ihe]
        simp [onAudioBufferCall, List.count_cons]
      · rw [iht]
        simp [onAudioBufferCall, List.count_cons]

/-- C9: `guarded` hands out a new strong reference to the live token with no
side effects when one exists; otherwise it runs the initializer only on the
first-ever activation, calls `wake_up`, runs the user wake-up closure and
stores a fresh token; dropping a non-last reference does nothing, dropping
the last runs the teardown and then `go_to_sleep`; two overlapping
activations share one token and exactly one wake/sleep cycle. -/
theorem c9_guard_sharing (g : GuardState) :
    (∀ tok n, g.live = some (tok, n) →
        guarded g = ({ g with live := some (tok, n + 1) }, tok, [])) ∧
    (g.live = none → g.initDone = false →
        guarded g =
          ({ initDone := true, live := some (g.nextToken, 1), nextToken := g.nextToken + 1 },
           g.nextToken,
           [GuardEvent.ranInitializer, GuardEvent.calledWakeUp, GuardEvent.ranUserWakeUp])) ∧
    (g.live = none → g.initDone = true →
        guarded g =
          ({ initDone := true, live := some (g.nextToken, 1), nextToken := g.nextToken + 1 },
           g.nextToken, [GuardEvent.calledWakeUp, GuardEvent.ranUserWakeUp])) ∧
    (g.live = none →
        (guarded g).1.initDone = true ∧ (dropGuardHandle (guarded g).1).1.initDone = true) ∧
    (∀ tok n, g.live = some (tok, n) → 2 ≤ n →
        dropGuardHandle g = ({ g with live := some (tok, n - 1) }, [])) ∧
    (∀ tok, g.live = some (tok, 1) →
        dropGuardHandle g =
          ({ g with live := none },
           [GuardEvent.ranTeardown, GuardEvent.calledGoToSleep])) ∧
    (g.live = none →
        (guarded (guarded g).1).2.1 = (guarded g).2.1 ∧
        (guarded (guarded g).1).2.2 = [] ∧
        (dropGuardHandle (guarded (guarded g).1).1).2 = [] ∧
        (dropGuardHandle (dropGuardHandle (guarded (guarded g).1).1).1).2 =
          [GuardEvent.ranTeardown, GuardEvent.calledGoToSleep]) := by
  refine ⟨?_, ?_, ?_, ?_, ?_, ?_, ?_⟩
  · intro tok n hl
    simp [guarded, hl]
  · intro hl hi
    simp [guarded, hl, hi]
  · intro hl hi
    simp [guarded, hl, hi]
  · intro hl
    constructor
    · simp [guarded, hl]
    · simp [guarded, dropGuardHandle, hl]
  · intro tok n hl hn
    simp only [dropGuardHandle, hl]
    rw [if_neg (by omega)]
  · intro tok hl
    simp [dropGuardHandle, hl]
  · intro hl
    refine ⟨?_, ?_, ?_, ?_⟩ <;> simp [guarded, dropGuardHandle, hl]

/-- Witness for C9 at concrete guard states: a fresh activation, a second
overlapping activation sharing the token, and the two drops with the
teardown-then-sleep pair firing exactly on the last one. -/
theorem c9_guard_sharing_witness :
    guarded { initDone := false, live := none, nextToken := 0 } =
      ({ initDone := true, live := some (0, 1), nextToken := 1 }, 0,
       [GuardEvent.ranInitializer, GuardEvent.calledWakeUp, GuardEvent.ranUserWakeUp]) ∧
    guarded { initDone := true, live := some (0, 1), nextToken := 1 } =
      ({ initDone := true, live := some (0, 2), nextToken := 1 }, 0, []) ∧
    dropGuardHandle { initDone := true, live := some (0, 2), nextToken := 1 } =
      ({ initDone := true, live := some (0, 1), nextToken := 1 }, []) ∧
    dropGuardHandle { initDone := true, live := some (0, 1), nextToken := 1 } =
      ({ initDone := true, live := none, nextToken := 1 },
       [GuardEvent.ranTeardown, GuardEvent.calledGoToSleep]) :=
  ⟨(c9_guard_sharing { initDone := false, live := none, nextToken := 0 }).2.1 rfl rfl,
   (c9_guard_sharing { initDone := true, live := some (0, 1), nextToken := 1 }).1 0 1 rfl,
   (c9_guard_sharing { initDone := true, live := some (0, 2), nextToken := 1 }).2.2.2.2.1
     0 2 rfl (by decide),
   (c9_guard_sharing { initDone := true, live := some (0, 1), nextToken := 1 }).2.2.2.2.2.1
     0 rfl⟩

end ReaperRs
